import Mathlib

/-!
Verification development for the Kimera-VIO pipeline orchestrator
(`src/include/kimera-vio/pipeline/Pipeline.h`).

The repository ships the orchestrator's interface header.  The two callback
registration functions (`registerKeyFrameRateOutputCallback`,
`registerLcdPgoOutputCallback`) are defined inline in the header and are
embedded here directly from that source.  The remaining operations (`spin`,
`spinOnce`, `shutdown`, `resume`, the initialization strategies, the stage
threads) are declared in the header but implemented elsewhere; their behaviour
is modelled from the specification, as flagged in each doc comment.

The model is a state machine: `PipelineState` carries the lifecycle flags,
queues and callback slots that the header declares as members, and `step`
interprets one pipeline operation (an external API call or one iteration of a
stage thread's pull-process-push loop).
-/

namespace KimeraVIO

/-- One synchronized camera/inertial input unit (`StereoImuSyncPacket`).
The boolean fields abstract the side-channel conditions the spec's
initialization strategies inspect: whether a ground-truth provider is
available, whether it has a state for this packet's timestamp, whether the
platform is observed stationary, and whether the online-alignment window has
sufficient motion and is well conditioned.  `reset_request` abstracts the
explicit re-initialize condition of spec section 4.1. -/
structure SyncPacket where
  timestamp : Nat
  gt_available : Bool
  gt_at_timestamp : Bool
  stationary : Bool
  sufficient_motion : Bool
  well_conditioned : Bool
  reset_request : Bool
deriving DecidableEq, Repr

/-- The loop-closure detector module (`lcd_module_`), abstracted to its
registered output callback slot (callbacks are identified by numbers). -/
structure LcdModuleModel where
  callback : Option Nat
deriving DecidableEq, Repr

/-- The three interchangeable bootstrapping strategies of the Initializer
(header: `initializeFromGroundTruth`, `initializeFromIMU`,
`initializeOnline`). -/
inductive InitStrategy where
  | groundTruth
  | stationaryIMU
  | onlineAlignment
deriving DecidableEq, Repr

/-- Orchestrator state: the members the header declares on `class Pipeline`.
Queues are FIFO lists; thread handles, callbacks and the NavState are
abstracted to flags, numbers and counters.  `fired_outputs` records, in
order, the backend outputs delivered to the keyframe-rate callback;
`dropped_count` counts packets silently dropped after shutdown;
`error_log` counts reported configuration errors. -/
structure PipelineState where
  shutdown_flag : Bool
  is_initialized : Bool
  is_launched : Bool
  paused : Bool
  nav_state : Option Nat
  init_attempts : Nat
  reinit_count : Nat
  last_strategy : Option InitStrategy
  keyframe_rate_output_callback : Option Nat
  lcd_module : Option LcdModuleModel
  stereo_frontend_input_queue : List SyncPacket
  initialization_frontend_output_queue : List Nat
  backend_input_queue : List Nat
  display_queue : List Nat
  fired_outputs : List Nat
  dropped_count : Nat
  error_log : Nat
deriving DecidableEq, Repr

/-- The freshly constructed pipeline: flags false, queues empty, no
callbacks registered, no loop-closure module instantiated. -/
def initialPipelineState : PipelineState :=
  { shutdown_flag := false
    is_initialized := false
    is_launched := false
    paused := false
    nav_state := none
    init_attempts := 0
    reinit_count := 0
    last_strategy := none
    keyframe_rate_output_callback := none
    lcd_module := none
    stereo_frontend_input_queue := []
    initialization_frontend_output_queue := []
    backend_input_queue := []
    display_queue := []
    fired_outputs := []
    dropped_count := 0
    error_log := 0 }

/-- Modelled from the spec: `Pipeline::initializeFromGroundTruth` (declared in
the header, body not in src/).  If the externally supplied reference state is
available for the packet's timestamp it is adopted directly as the NavState;
otherwise the strategy fails (missing ground truth for the required
timestamp). -/
def initializeFromGroundTruth (p : SyncPacket) : Option Nat :=
  if p.gt_at_timestamp then some p.timestamp else none

/-- Modelled from the spec: `Pipeline::initializeFromIMU` (declared in the
header, body not in src/).  Guesses the initial state assuming zero velocity
and a steady upright vehicle from the packet's inertial window; the spec lists
no failure mode for this strategy. -/
def initializeFromIMU (p : SyncPacket) : Option Nat :=
  some p.timestamp

/-- Modelled from the spec: `Pipeline::initializeOnline` (declared in the
header, body not in src/).  Solves for scale/gravity/bias from a buffered
window; fails when motion is insufficient or the alignment is
ill-conditioned. -/
def initializeOnline (p : SyncPacket) : Option Nat :=
  if p.sufficient_motion && p.well_conditioned then some p.timestamp else none

/-- Modelled from the spec: strategy selection of the initialization state
machine (spec section 4.1 and section 8).  Exactly one strategy is chosen
from the availability pattern: valid ground truth selects the ground-truth
strategy, a stationary start without ground truth selects the stationary-IMU
strategy, and otherwise online alignment is selected. -/
def selectStrategy (p : SyncPacket) : InitStrategy :=
  if p.gt_available then .groundTruth
  else if p.stationary then .stationaryIMU
  else .onlineAlignment

/-- Dispatch one strategy on one packet; `none` is a reported, non-fatal
failure. -/
def runStrategy : InitStrategy → SyncPacket → Option Nat
  | .groundTruth, p => initializeFromGroundTruth p
  | .stationaryIMU, p => initializeFromIMU p
  | .onlineAlignment, p => initializeOnline p

/-- Modelled from the spec: `Pipeline::initialize` (declared in the header,
body not in src/).  Selects exactly one strategy, records the attempt, and
reports success or failure through its boolean return value; on failure the
pipeline stays uninitialized and the NavState is untouched. -/
def initializePipeline (s : PipelineState) (p : SyncPacket) :
    Bool × PipelineState :=
  let strat := selectStrategy p
  let s1 := { s with init_attempts := s.init_attempts + 1,
                     last_strategy := some strat }
  match runStrategy strat p with
  | some nav => (true, { s1 with is_initialized := true, nav_state := some nav })
  | none => (false, s1)

/-- Modelled from the spec: `Pipeline::checkReInitialize` (declared in the
header, body not in src/).  Re-initialization is a distinct explicit event:
it resets the NavState and restarts bootstrapping (counted by
`reinit_count`) without clearing the `isInitialized` flag and without
re-creating stage threads (spec invariant I4). -/
def checkReInit (s : PipelineState) (p : SyncPacket) : PipelineState :=
  if p.reset_request then
    { s with reinit_count := s.reinit_count + 1, nav_state := none }
  else s

/-- Modelled from the spec: `Pipeline::spinOnce` / `Pipeline::spin`
(declared in the header, bodies not in src/).  A packet submitted after
shutdown is silently dropped (and counted); otherwise the first packets drive
initialization, an initialized pipeline checks the re-initialize condition,
and the packet is forwarded into the frontend input queue. -/
def spinOnce (s : PipelineState) (p : SyncPacket) : PipelineState :=
  if s.shutdown_flag then { s with dropped_count := s.dropped_count + 1 }
  else
    let s0 := { s with is_launched := true }
    if s0.is_initialized then
      let s1 := checkReInit s0 p
      { s1 with stereo_frontend_input_queue :=
                  s1.stereo_frontend_input_queue ++ [p] }
    else
      let s1 := (initializePipeline s0 p).snd
      { s1 with stereo_frontend_input_queue :=
                  s1.stereo_frontend_input_queue ++ [p] }

/-- Modelled from the spec: one iteration of the frontend thread's
pull-process-push loop.  It blocks (is a no-op) when shut down, paused or
its input queue is empty; otherwise it pops one packet FIFO and pushes the
tracked-feature payload downstream — to the backend input queue once
initialized, to the initialization frontend output queue before that. -/
def frontendStep (s : PipelineState) : PipelineState :=
  if s.shutdown_flag || s.paused then s
  else
    match s.stereo_frontend_input_queue with
    | [] => s
    | p :: rest =>
      if s.is_initialized then
        { s with stereo_frontend_input_queue := rest,
                 backend_input_queue := s.backend_input_queue ++ [p.timestamp] }
      else
        { s with stereo_frontend_input_queue := rest,
                 initialization_frontend_output_queue :=
                   s.initialization_frontend_output_queue ++ [p.timestamp] }

/-- Modelled from the spec: one iteration of the backend thread's loop.  It
pops one payload FIFO, invokes the keyframe-rate output callback if one is
registered (in production order), and feeds the visualizer's queue. -/
def backendStep (s : PipelineState) : PipelineState :=
  if s.shutdown_flag || s.paused then s
  else
    match s.backend_input_queue with
    | [] => s
    | x :: rest =>
      let fired :=
        match s.keyframe_rate_output_callback with
        | some _ => s.fired_outputs ++ [x]
        | none => s.fired_outputs
      { s with backend_input_queue := rest,
               display_queue := s.display_queue ++ [x],
               fired_outputs := fired }

/-- Modelled from the spec: `Pipeline::spinDisplayOnce` (declared in the
header, body not in src/).  Displaying is done on the caller's (display)
thread: one explicit call consumes one visualization output from the
display queue. -/
def spinDisplayOnceStep (s : PipelineState) : PipelineState :=
  if s.shutdown_flag then s
  else
    match s.display_queue with
    | [] => s
    | _ :: rest => { s with display_queue := rest }

/-- Modelled from the spec: `Pipeline::shutdown` (declared in the header,
body not in src/).  Sets the shutdown flag, signals every queue's shutdown
condition, joins every stage thread (so no stage loop runs afterwards) and
clears the suspend condition; queue contents are not discarded. -/
def shutdownOp (s : PipelineState) : PipelineState :=
  { s with shutdown_flag := true, is_launched := false, paused := false }

/-- Modelled from the spec: `Pipeline::resume` (header comment: resumes all
queues).  Clears the pipeline-wide suspend condition; queue contents and
order are untouched. -/
def resumeOp (s : PipelineState) : PipelineState :=
  { s with paused := false }

/-- Embedded from the header (inline body): unconditionally stores the given
callback in `keyframe_rate_output_callback_`, overwriting any previous
registration, with no check that the producing backend stage exists and no
error report. -/
def registerKeyFrameRateOutputCallback (s : PipelineState) (cb : Nat) :
    PipelineState :=
  { s with keyframe_rate_output_callback := some cb }

/-- Embedded from the header (inline body): forwards the callback to the
loop-closure module when one is active, and otherwise logs an error
(`LOG(ERROR)`, counted by `error_log`) and changes nothing else. -/
def registerLcdPgoOutputCallback (s : PipelineState) (cb : Nat) :
    PipelineState :=
  match s.lcd_module with
  | some m => { s with lcd_module := some { m with callback := some cb } }
  | none => { s with error_log := s.error_log + 1 }

/-- One pipeline operation: an external API call on the orchestrator, or one
iteration of a pipeline-owned stage thread, or one explicit display call on
the caller's thread. -/
inductive PipelineOp where
  | spin (p : SyncPacket)
  | shutdownCall
  | resumeCall
  | registerKeyframeCb (cb : Nat)
  | registerLcdCb (cb : Nat)
  | frontendThreadStep
  | backendThreadStep
  | displayOnce
deriving DecidableEq, Repr

/-- Interpret one pipeline operation. -/
def step (s : PipelineState) : PipelineOp → PipelineState
  | .spin p => spinOnce s p
  | .shutdownCall => shutdownOp s
  | .resumeCall => resumeOp s
  | .registerKeyframeCb cb => registerKeyFrameRateOutputCallback s cb
  | .registerLcdCb cb => registerLcdPgoOutputCallback s cb
  | .frontendThreadStep => frontendStep s
  | .backendThreadStep => backendStep s
  | .displayOnce => spinDisplayOnceStep s

/-- Run a sequence of pipeline operations. -/
def runOps (s : PipelineState) : List PipelineOp → PipelineState
  | [] => s
  | op :: rest => runOps (step s op) rest

/-!
Execution-mode equivalence model (claim about `spin` vs `spinSequential`).

Modelled from the spec: the parallel mode runs each stage as a thread with an
unbounded pull-process-push loop on FIFO queues, while the sequential mode
calls each stage's processing function directly, in pipeline order, on the
caller's thread.  With deterministic stage internals the stage bodies are
plain functions (frontend, then backend), abstracted here over arbitrary
payload types.  An interleaving of the stage threads is a schedule: a list
saying which worker takes its next loop iteration.
-/

variable {A B C : Type}

/-- Deterministic stage internals of the frontend → backend chain. -/
structure StageChain (A B C : Type) where
  frontendFn : A → B
  backendFn : B → C

/-- Configuration of the threaded (parallel) pipeline: the frontend input
queue, the backend input queue, and the outputs emitted so far, in order. -/
structure ParallelConfigState (A B C : Type) where
  inQ : List A
  midQ : List B
  outs : List C
deriving DecidableEq

/-- Which stage thread performs the next iteration of its loop. -/
inductive WorkerTag where
  | frontendWorker
  | backendWorker
deriving DecidableEq, Repr

/-- One loop iteration of the chosen stage thread: pop one item FIFO from its
input queue (a no-op when the queue is empty, i.e. the thread blocks) and
push the processed payload downstream. -/
def workerStep (sc : StageChain A B C) (c : ParallelConfigState A B C) :
    WorkerTag → ParallelConfigState A B C
  | .frontendWorker =>
    match c.inQ with
    | [] => c
    | x :: rest => { c with inQ := rest, midQ := c.midQ ++ [sc.frontendFn x] }
  | .backendWorker =>
    match c.midQ with
    | [] => c
    | y :: rest => { c with midQ := rest, outs := c.outs ++ [sc.backendFn y] }

/-- Run the parallel pipeline under a given interleaving of the stage
threads. -/
def runSchedule (sc : StageChain A B C) (c : ParallelConfigState A B C) :
    List WorkerTag → ParallelConfigState A B C
  | [] => c
  | w :: ws => runSchedule sc (workerStep sc c w) ws

/-- Starting configuration of a parallel run: all packets submitted into the
frontend input queue, nothing processed yet. -/
def initialConfig (packets : List A) : ParallelConfigState A B C :=
  { inQ := packets, midQ := [], outs := [] }

/-- Modelled from the spec: one sequential `spinOnce` — process one packet
through every stage in pipeline order on the caller's thread, appending the
resulting output. -/
def spinSequentialOnce (sc : StageChain A B C) (outs : List C) (p : A) :
    List C :=
  outs ++ [sc.backendFn (sc.frontendFn p)]

/-- Modelled from the spec: `Pipeline::spinSequential` over a finite packet
sequence — one-packet-at-a-time processing on the caller's thread. -/
def spinSequentialRun (sc : StageChain A B C) (packets : List A) : List C :=
  packets.foldl (spinSequentialOnce sc) []

/-- The outputs a configuration is still bound to produce, together with
those already produced: the invariant of the parallel run. -/
def pendingOuts (sc : StageChain A B C) (c : ParallelConfigState A B C) :
    List C :=
  c.outs ++ c.midQ.map sc.backendFn ++ c.inQ.map (sc.backendFn ∘ sc.frontendFn)

theorem workerStep_pendingOuts (sc : StageChain A B C)
    (c : ParallelConfigState A B C) (w : WorkerTag) :
    pendingOuts sc (workerStep sc c w) = pendingOuts sc c := by
  cases w with
  | frontendWorker =>
    cases h : c.inQ with
    | nil => simp [workerStep, h]
    | cons x rest => simp [workerStep, h, pendingOuts, List.append_assoc]
  | backendWorker =>
    cases h : c.midQ with
    | nil => simp [workerStep, h]
    | cons y rest => simp [workerStep, h, pendingOuts, List.append_assoc]

theorem runSchedule_pendingOuts (sc : StageChain A B C)
    (c : ParallelConfigState A B C) (ws : List WorkerTag) :
    pendingOuts sc (runSchedule sc c ws) = pendingOuts sc c := by
  induction ws generalizing c with
  | nil => rfl
  | cons w ws ih =>
    simp [runSchedule, ih, workerStep_pendingOuts]

theorem spinSequentialRun_eq_map (sc : StageChain A B C) (packets : List A) :
    spinSequentialRun sc packets = packets.map (sc.backendFn ∘ sc.frontendFn) := by
  have general : ∀ (l : List A) (acc : List C),
      l.foldl (spinSequentialOnce sc) acc =
        acc ++ l.map (sc.backendFn ∘ sc.frontendFn) := by
    intro l
    induction l with
    | nil => intro acc; simp
    | cons x xs ih =>
      intro acc
      simp [spinSequentialOnce, ih, List.append_assoc]
  simpa using general packets []

/-!
Trace machinery for the lifecycle claims: the states visited along a run and
the rising edges of the `is_initialized_` flag.
-/

/-- The states visited while running a sequence of operations, starting with
the initial one. -/
def traceStates (s : PipelineState) : List PipelineOp → List PipelineState
  | [] => [s]
  | op :: rest => s :: traceStates (step s op) rest

/-- The successive values of the `is_initialized_` flag along a run. -/
def flagTrace (s : PipelineState) (ops : List PipelineOp) : List Bool :=
  (traceStates s ops).map (fun st => st.is_initialized)

/-- Number of false-to-true transitions in a boolean trace. -/
def countRises : List Bool → Nat
  | false :: true :: rest => countRises (true :: rest) + 1
  | _ :: rest => countRises rest
  | [] => 0

theorem countRises_true_cons (l : List Bool) :
    countRises (true :: l) = countRises l := rfl

theorem countRises_false_true (l : List Bool) :
    countRises (false :: true :: l) = countRises (true :: l) + 1 := rfl

theorem countRises_false_false (l : List Bool) :
    countRises (false :: false :: l) = countRises (false :: l) := rfl

theorem flagTrace_cons (s : PipelineState) (op : PipelineOp)
    (rest : List PipelineOp) :
    flagTrace s (op :: rest) = s.is_initialized :: flagTrace (step s op) rest :=
  rfl

theorem flagTrace_head (s : PipelineState) (ops : List PipelineOp) :
    ∃ t, flagTrace s ops = s.is_initialized :: t := by
  cases ops with
  | nil => exact ⟨[], rfl⟩
  | cons op rest => exact ⟨flagTrace (step s op) rest, rfl⟩

theorem step_is_initialized_mono (s : PipelineState) (op : PipelineOp)
    (h : s.is_initialized = true) : (step s op).is_initialized = true := by
  cases op <;>
    simp_all [step, spinOnce, shutdownOp, resumeOp,
      registerKeyFrameRateOutputCallback, registerLcdPgoOutputCallback,
      frontendStep, backendStep, spinDisplayOnceStep, checkReInit,
      initializePipeline] <;>
    (try split) <;> simp_all <;> (try split) <;> simp_all

theorem countRises_flagTrace_of_true (s : PipelineState) (ops : List PipelineOp)
    (h : s.is_initialized = true) : countRises (flagTrace s ops) = 0 := by
  induction ops generalizing s with
  | nil =>
    have hx : flagTrace s [] = [true] := by simp [flagTrace, traceStates, h]
    rw [hx]
    rfl
  | cons op rest ih =>
    rw [flagTrace_cons, h, countRises_true_cons]
    exact ih (step s op) (step_is_initialized_mono s op h)

theorem countRises_flagTrace_le_one (s : PipelineState) (ops : List PipelineOp) :
    countRises (flagTrace s ops) ≤ 1 := by
  induction ops generalizing s with
  | nil =>
    obtain ⟨t, ht⟩ := flagTrace_head s []
    have : t = [] := by
      simpa [flagTrace, traceStates] using ht
    subst this
    rw [ht]
    cases s.is_initialized <;> simp [countRises]
  | cons op rest ih =>
    cases hb : s.is_initialized with
    | true =>
      rw [countRises_flagTrace_of_true s (op :: rest) hb]
      exact Nat.zero_le 1
    | false =>
      rw [flagTrace_cons, hb]
      obtain ⟨t, ht⟩ := flagTrace_head (step s op) rest
      cases hb2 : (step s op).is_initialized with
      | true =>
        rw [hb2] at ht
        have h0 := countRises_flagTrace_of_true (step s op) rest hb2
        rw [ht, countRises_false_true]
        rw [ht] at h0
        omega
      | false =>
        rw [hb2] at ht
        rw [ht, countRises_false_false, ← ht]
        exact ih (step s op)

theorem countRises_flagTrace_pos_of_flip (s : PipelineState)
    (ops : List PipelineOp) (h0 : s.is_initialized = false)
    (h1 : (runOps s ops).is_initialized = true) :
    1 ≤ countRises (flagTrace s ops) := by
  induction ops generalizing s with
  | nil =>
    rw [runOps] at h1
    rw [h0] at h1
    exact absurd h1 (by simp)
  | cons op rest ih =>
    rw [flagTrace_cons, h0]
    obtain ⟨t, ht⟩ := flagTrace_head (step s op) rest
    cases hb2 : (step s op).is_initialized with
    | true =>
      rw [hb2] at ht
      rw [ht, countRises_false_true]
      omega
    | false =>
      rw [hb2] at ht
      rw [ht, countRises_false_false, ← ht]
      exact ih (step s op) hb2 h1

theorem step_after_shutdown (s : PipelineState) (op : PipelineOp)
    (h : s.shutdown_flag = true) :
    (step s op).shutdown_flag = true ∧
    (step s op).stereo_frontend_input_queue = s.stereo_frontend_input_queue ∧
    (step s op).initialization_frontend_output_queue =
      s.initialization_frontend_output_queue ∧
    (step s op).backend_input_queue = s.backend_input_queue ∧
    (step s op).display_queue = s.display_queue ∧
    (step s op).fired_outputs = s.fired_outputs := by
  cases op <;>
    simp_all [step, spinOnce, shutdownOp, resumeOp,
      registerKeyFrameRateOutputCallback, registerLcdPgoOutputCallback,
      frontendStep, backendStep, spinDisplayOnceStep] <;>
    ((try split) <;> simp_all)

theorem runOps_after_shutdown (s : PipelineState) (ops : List PipelineOp)
    (h : s.shutdown_flag = true) :
    (runOps s ops).shutdown_flag = true ∧
    (runOps s ops).stereo_frontend_input_queue = s.stereo_frontend_input_queue ∧
    (runOps s ops).initialization_frontend_output_queue =
      s.initialization_frontend_output_queue ∧
    (runOps s ops).backend_input_queue = s.backend_input_queue ∧
    (runOps s ops).display_queue = s.display_queue ∧
    (runOps s ops).fired_outputs = s.fired_outputs := by
  induction ops generalizing s with
  | nil => exact ⟨h, rfl, rfl, rfl, rfl, rfl⟩
  | cons op rest ih =>
    obtain ⟨h1, h2, h3, h4, h5, h6⟩ := step_after_shutdown s op h
    obtain ⟨g1, g2, g3, g4, g5, g6⟩ := ih (step s op) h1
    exact ⟨g1, g2.trans h2, g3.trans h3, g4.trans h4, g5.trans h5, g6.trans h6⟩

/-!
Concrete demonstration inputs used by the witnesses.
-/

/-- A packet with valid ground truth for its timestamp. -/
def gtPacket : SyncPacket :=
  { timestamp := 10, gt_available := true, gt_at_timestamp := true,
    stationary := false, sufficient_motion := false,
    well_conditioned := false, reset_request := false }

/-- A packet with no ground truth but a stationary start. -/
def imuPacket : SyncPacket :=
  { timestamp := 11, gt_available := false, gt_at_timestamp := false,
    stationary := true, sufficient_motion := false,
    well_conditioned := false, reset_request := false }

/-- A packet with neither ground truth nor a stationary start, on which the
online-alignment strategy fails for insufficient motion. -/
def onlineFailPacket : SyncPacket :=
  { timestamp := 12, gt_available := false, gt_at_timestamp := false,
    stationary := false, sufficient_motion := false,
    well_conditioned := false, reset_request := false }

/-- A packet carrying an explicit re-initialize request. -/
def resetPacket : SyncPacket :=
  { timestamp := 13, gt_available := false, gt_at_timestamp := false,
    stationary := true, sufficient_motion := false,
    well_conditioned := false, reset_request := true }

/-- A pipeline that has completed stationary-IMU initialization on one
packet. -/
def initializedDemoState : PipelineState :=
  runOps initialPipelineState [PipelineOp.spin imuPacket]

/-- A pipeline on which `shutdown()` has been called. -/
def shutdownDemoState : PipelineState :=
  step initialPipelineState PipelineOp.shutdownCall

/-- Concrete deterministic stage internals for the witnesses. -/
def demoChain : StageChain Nat Nat Nat :=
  { frontendFn := fun n => n + 1, backendFn := fun n => 2 * n }

/-!
The claims.
-/

/-- C1: for every sequence of packets with deterministic stage internals,
any parallel (threaded) run that drains the queues produces the same output
values, in the same order, as the sequential one-packet-at-a-time run on the
caller's thread. -/
theorem C1_execution_mode_equivalence (sc : StageChain A B C)
    (packets : List A) (ws : List WorkerTag)
    (hin : (runSchedule sc (initialConfig packets) ws).inQ = [])
    (hmid : (runSchedule sc (initialConfig packets) ws).midQ = []) :
    (runSchedule sc (initialConfig packets) ws).outs =
      spinSequentialRun sc packets := by
  have h := runSchedule_pendingOuts sc (initialConfig packets) ws
  rw [spinSequentialRun_eq_map]
  unfold pendingOuts at h
  rw [hin, hmid] at h
  simpa [initialConfig] using h

/-- Witness for C1: a concrete two-packet parallel run under an interleaved
schedule equals the sequential run. -/
theorem C1_execution_mode_equivalence_witness :
    (runSchedule demoChain (initialConfig [3, 4])
        [WorkerTag.frontendWorker, WorkerTag.backendWorker,
         WorkerTag.frontendWorker, WorkerTag.backendWorker]).inQ = [] ∧
    (runSchedule demoChain (initialConfig [3, 4])
        [WorkerTag.frontendWorker, WorkerTag.backendWorker,
         WorkerTag.frontendWorker, WorkerTag.backendWorker]).midQ = [] ∧
    (runSchedule demoChain (initialConfig [3, 4])
        [WorkerTag.frontendWorker, WorkerTag.backendWorker,
         WorkerTag.frontendWorker, WorkerTag.backendWorker]).outs =
      spinSequentialRun demoChain [3, 4] :=
  ⟨rfl, rfl,
    C1_execution_mode_equivalence demoChain [3, 4]
      [WorkerTag.frontendWorker, WorkerTag.backendWorker,
       WorkerTag.frontendWorker, WorkerTag.backendWorker] rfl rfl⟩

/-- C2: once the shutdown flag is set, no operation pushes into any stage
queue and no output callback fires: every queue's contents stay exactly as
they were under any further sequence of operations, and a further
spin/submit call only bumps the dropped-packet counter (silent drop). -/
theorem C2_no_push_after_shutdown (s : PipelineState) (ops : List PipelineOp)
    (h : s.shutdown_flag = true) :
    (runOps s ops).shutdown_flag = true ∧
    (runOps s ops).stereo_frontend_input_queue = s.stereo_frontend_input_queue ∧
    (runOps s ops).initialization_frontend_output_queue =
      s.initialization_frontend_output_queue ∧
    (runOps s ops).backend_input_queue = s.backend_input_queue ∧
    (runOps s ops).display_queue = s.display_queue ∧
    (runOps s ops).fired_outputs = s.fired_outputs ∧
    (∀ p : SyncPacket,
      spinOnce s p = { s with dropped_count := s.dropped_count + 1 }) := by
  obtain ⟨h1, h2, h3, h4, h5, h6⟩ := runOps_after_shutdown s ops h
  refine ⟨h1, h2, h3, h4, h5, h6, ?_⟩
  intro p
  simp [spinOnce, h]

/-- Witness for C2: after shutting down the fresh pipeline, a submit plus a
round of stage-thread iterations leaves every queue empty and fires no
callback. -/
theorem C2_no_push_after_shutdown_witness :
    (runOps shutdownDemoState
        [PipelineOp.spin gtPacket, PipelineOp.frontendThreadStep,
         PipelineOp.backendThreadStep,
         PipelineOp.displayOnce]).stereo_frontend_input_queue =
      shutdownDemoState.stereo_frontend_input_queue ∧
    (runOps shutdownDemoState
        [PipelineOp.spin gtPacket, PipelineOp.frontendThreadStep,
         PipelineOp.backendThreadStep,
         PipelineOp.displayOnce]).fired_outputs =
      shutdownDemoState.fired_outputs :=
  ⟨(C2_no_push_after_shutdown shutdownDemoState
      [PipelineOp.spin gtPacket, PipelineOp.frontendThreadStep,
       PipelineOp.backendThreadStep, PipelineOp.displayOnce] rfl).2.1,
   (C2_no_push_after_shutdown shutdownDemoState
      [PipelineOp.spin gtPacket, PipelineOp.frontendThreadStep,
       PipelineOp.backendThreadStep, PipelineOp.displayOnce] rfl).2.2.2.2.2.1⟩

/-- C3: `shutdown()` is idempotent — a second call after the first leaves
the pipeline state exactly as the first call left it. -/
theorem C3_shutdown_idempotent (s : PipelineState) :
    step (step s PipelineOp.shutdownCall) PipelineOp.shutdownCall =
      step s PipelineOp.shutdownCall := rfl

/-- C4: when the selected initialization strategy fails on a packet, the
failure is reported through the boolean return value, the pipeline stays
uninitialized with its NavState untouched (pre-Nominal state), the call is
total (no crash), and the next packet triggers another initialization
attempt. -/
theorem C4_init_failure_nonfatal (s : PipelineState) (p q : SyncPacket)
    (hs : s.shutdown_flag = false) (hi : s.is_initialized = false)
    (hfail : runStrategy (selectStrategy p) p = none) :
    (initializePipeline s p).fst = false ∧
    (spinOnce s p).is_initialized = false ∧
    (spinOnce s p).nav_state = s.nav_state ∧
    (spinOnce s p).init_attempts = s.init_attempts + 1 ∧
    (spinOnce (spinOnce s p) q).init_attempts = s.init_attempts + 2 := by
  simp [spinOnce, initializePipeline, hs, hi, hfail]
  split <;> rfl

/-- Witness for C4: the online-alignment strategy fails on a motionless
packet submitted to the fresh pipeline, which stays uninitialized and
retries on the next packet. -/
theorem C4_init_failure_nonfatal_witness :
    (initializePipeline initialPipelineState onlineFailPacket).fst = false ∧
    (spinOnce initialPipelineState onlineFailPacket).is_initialized = false ∧
    (spinOnce (spinOnce initialPipelineState onlineFailPacket)
        onlineFailPacket).init_attempts =
      initialPipelineState.init_attempts + 2 := by
  have h := C4_init_failure_nonfatal initialPipelineState onlineFailPacket
    onlineFailPacket rfl rfl rfl
  exact ⟨h.1, h.2.1, h.2.2.2.2⟩

/-- C5: on a packet received while uninitialized, exactly one of the three
bootstrapping strategies is selected and executed (recorded as the attempted
strategy), for every availability pattern of ground truth and stationarity:
valid ground truth selects the ground-truth strategy, a stationary start
without ground truth selects stationary-IMU, and otherwise online alignment
is selected; the three cases are mutually exclusive. -/
theorem C5_strategy_selection_total_exclusive (s : PipelineState)
    (p : SyncPacket) (hs : s.shutdown_flag = false)
    (hi : s.is_initialized = false) :
    (spinOnce s p).last_strategy = some (selectStrategy p) ∧
    (p.gt_available = true → selectStrategy p = InitStrategy.groundTruth) ∧
    (p.gt_available = false → p.stationary = true →
      selectStrategy p = InitStrategy.stationaryIMU) ∧
    (p.gt_available = false → p.stationary = false →
      selectStrategy p = InitStrategy.onlineAlignment) ∧
    ((selectStrategy p = InitStrategy.groundTruth ∧
        selectStrategy p ≠ InitStrategy.stationaryIMU ∧
        selectStrategy p ≠ InitStrategy.onlineAlignment) ∨
      (selectStrategy p ≠ InitStrategy.groundTruth ∧
        selectStrategy p = InitStrategy.stationaryIMU ∧
        selectStrategy p ≠ InitStrategy.onlineAlignment) ∨
      (selectStrategy p ≠ InitStrategy.groundTruth ∧
        selectStrategy p ≠ InitStrategy.stationaryIMU ∧
        selectStrategy p = InitStrategy.onlineAlignment)) := by
  refine ⟨?_, ?_, ?_, ?_, ?_⟩
  · simp only [spinOnce, hs, hi]
    simp [initializePipeline]
    split <;> rfl
  · intro h
    simp [selectStrategy, h]
  · intro h1 h2
    simp [selectStrategy, h1, h2]
  · intro h1 h2
    simp [selectStrategy, h1, h2]
  · rcases hsel : selectStrategy p <;> simp [hsel]

/-- Witness for C5: the three demonstration packets select the three
strategies, and the attempt is recorded on the fresh pipeline. -/
theorem C5_strategy_selection_total_exclusive_witness :
    (spinOnce initialPipelineState gtPacket).last_strategy =
      some (selectStrategy gtPacket) ∧
    selectStrategy gtPacket = InitStrategy.groundTruth ∧
    selectStrategy imuPacket = InitStrategy.stationaryIMU ∧
    selectStrategy onlineFailPacket = InitStrategy.onlineAlignment :=
  ⟨(C5_strategy_selection_total_exclusive initialPipelineState gtPacket
      rfl rfl).1,
   (C5_strategy_selection_total_exclusive initialPipelineState gtPacket
      rfl rfl).2.1 rfl,
   (C5_strategy_selection_total_exclusive initialPipelineState imuPacket
      rfl rfl).2.2.1 rfl rfl,
   (C5_strategy_selection_total_exclusive initialPipelineState onlineFailPacket
      rfl rfl).2.2.2.1 rfl rfl⟩

/-- C6: along every run, the `is_initialized_` flag rises from false to true
at most once — exactly once when initialization ever succeeds — and an
explicit re-initialization on an initialized pipeline is a distinct event:
it bumps the re-initialization counter while the flag stays true. -/
theorem C6_is_initialized_rises_at_most_once (s : PipelineState)
    (ops : List PipelineOp) :
    countRises (flagTrace s ops) ≤ 1 ∧
    (s.is_initialized = false → (runOps s ops).is_initialized = true →
      countRises (flagTrace s ops) = 1) ∧
    (∀ p : SyncPacket, s.is_initialized = true → s.shutdown_flag = false →
      p.reset_request = true →
      (step s (PipelineOp.spin p)).is_initialized = true ∧
      (step s (PipelineOp.spin p)).reinit_count = s.reinit_count + 1) := by
  refine ⟨countRises_flagTrace_le_one s ops, ?_, ?_⟩
  · intro h0 h1
    have hle := countRises_flagTrace_le_one s ops
    have hge := countRises_flagTrace_pos_of_flip s ops h0 h1
    omega
  · intro p hinit hsd hreset
    refine ⟨step_is_initialized_mono s _ hinit, ?_⟩
    simp [step, spinOnce, hsd, hinit, checkReInit, hreset]

/-- Witness for C6: a run that initializes on its single packet shows
exactly one rising edge, and a reset request on an initialized pipeline
bumps the re-initialization counter. -/
theorem C6_is_initialized_rises_at_most_once_witness :
    countRises (flagTrace initialPipelineState [PipelineOp.spin imuPacket]) = 1 ∧
    (step initializedDemoState (PipelineOp.spin resetPacket)).reinit_count =
      initializedDemoState.reinit_count + 1 :=
  ⟨(C6_is_initialized_rises_at_most_once initialPipelineState
      [PipelineOp.spin imuPacket]).2.1 rfl rfl,
   ((C6_is_initialized_rises_at_most_once initializedDemoState []).2.2
      resetPacket rfl rfl rfl).2⟩

/-- C7: registering the loop-closure/PGO output callback on a pipeline whose
loop-closure module was never instantiated reports a configuration error and
registers nothing, leaving the rest of the pipeline state untouched; when
the module exists, the callback is forwarded to it without an error. -/
theorem C7_lcd_callback_registration (s : PipelineState) (cb : Nat) :
    (s.lcd_module = none →
      (registerLcdPgoOutputCallback s cb).error_log = s.error_log + 1 ∧
      (registerLcdPgoOutputCallback s cb).lcd_module = none ∧
      (registerLcdPgoOutputCallback s cb).shutdown_flag = s.shutdown_flag ∧
      (registerLcdPgoOutputCallback s cb).is_initialized = s.is_initialized ∧
      (registerLcdPgoOutputCallback s cb).stereo_frontend_input_queue =
        s.stereo_frontend_input_queue ∧
      (registerLcdPgoOutputCallback s cb).backend_input_queue =
        s.backend_input_queue ∧
      (registerLcdPgoOutputCallback s cb).keyframe_rate_output_callback =
        s.keyframe_rate_output_callback) ∧
    (∀ m : LcdModuleModel, s.lcd_module = some m →
      (registerLcdPgoOutputCallback s cb).lcd_module =
        some { m with callback := some cb } ∧
      (registerLcdPgoOutputCallback s cb).error_log = s.error_log) := by
  constructor
  · intro h
    simp [registerLcdPgoOutputCallback, h]
  · intro m h
    simp [registerLcdPgoOutputCallback, h]

/-- A pipeline whose loop-closure module is instantiated but has no
callback registered yet. -/
def lcdDemoState : PipelineState :=
  { initialPipelineState with lcd_module := some { callback := none } }

/-- Witness for C7: registration on the fresh pipeline (no loop-closure
module) logs an error and registers nothing; on a pipeline with the module,
the callback is forwarded. -/
theorem C7_lcd_callback_registration_witness :
    (registerLcdPgoOutputCallback initialPipelineState 7).error_log =
      initialPipelineState.error_log + 1 ∧
    (registerLcdPgoOutputCallback initialPipelineState 7).lcd_module = none ∧
    (registerLcdPgoOutputCallback lcdDemoState 7).lcd_module =
      some { callback := some 7 } :=
  ⟨((C7_lcd_callback_registration initialPipelineState 7).1 rfl).1,
   ((C7_lcd_callback_registration initialPipelineState 7).1 rfl).2.1,
   ((C7_lcd_callback_registration lcdDemoState 7).2
      { callback := none } rfl).1⟩

/-- Public member functions of `class Pipeline` as listed in the header,
constructor and destructor aside. -/
def pipelinePublicMemberFunctions : List String :=
  ["spin", "spinViz", "spinOnce", "spinSequential", "shutdownWhenFinished",
   "shutdown", "resume", "registerKeyFrameRateOutputCallback",
   "registerLcdPgoOutputCallback"]

/-- C8 counterexample: the Pipeline class exposes no pause() member at all —
only resume() — so the claimed pause()/resume() pair does not exist as
stated. -/
theorem C8_counterexample_no_pause_exposed :
    "pause" ∉ pipelinePublicMemberFunctions := by decide

/-- C8 amended: the pipeline exposes resume() (which resumes all queues) but
no pause() operation; resume() only clears the suspend condition and
preserves every queue's contents and order. -/
theorem C8_resume_exposed_without_pause :
    "resume" ∈ pipelinePublicMemberFunctions ∧
    "pause" ∉ pipelinePublicMemberFunctions ∧
    ∀ s : PipelineState,
      (resumeOp s).paused = false ∧
      (resumeOp s).stereo_frontend_input_queue =
        s.stereo_frontend_input_queue ∧
      (resumeOp s).initialization_frontend_output_queue =
        s.initialization_frontend_output_queue ∧
      (resumeOp s).backend_input_queue = s.backend_input_queue ∧
      (resumeOp s).display_queue = s.display_queue := by
  refine ⟨by decide, by decide, ?_⟩
  intro s
  exact ⟨rfl, rfl, rfl, rfl, rfl⟩

/-- Names of the five pipeline stages. -/
inductive StageName where
  | frontend
  | backend
  | mesher
  | loopClosure
  | visualizer
deriving DecidableEq, Repr

/-- Modelled from the spec: the stage threads that `launchThreads` (declared
in the header, body not in src/) spawns in parallel mode — one pipeline-owned
thread per stage except the visualizer, whose consumption loop is driven
from the thread that owns the display surface. -/
def spawnedStageThreads : List StageName :=
  [StageName.frontend, StageName.backend, StageName.mesher,
   StageName.loopClosure]

theorem spinOnce_display_queue (s : PipelineState) (p : SyncPacket) :
    (spinOnce s p).display_queue = s.display_queue := by
  cases hs : s.shutdown_flag with
  | true => simp [spinOnce, hs]
  | false =>
    cases hi : s.is_initialized with
    | true =>
      cases hr : p.reset_request <;>
        simp [spinOnce, hs, hi, checkReInit, hr]
    | false =>
      cases hstrat : runStrategy (selectStrategy p) p <;>
        simp [spinOnce, hs, hi, initializePipeline, hstrat]

theorem frontendStep_display_queue (s : PipelineState) :
    (frontendStep s).display_queue = s.display_queue := by
  unfold frontendStep
  split
  · rfl
  · split
    · rfl
    · split <;> rfl

theorem backendStep_display_queue (s : PipelineState) :
    ∃ extra, (backendStep s).display_queue = s.display_queue ++ extra := by
  unfold backendStep
  split
  · exact ⟨[], by simp⟩
  · split
    · exact ⟨[], by simp⟩
    · exact ⟨_, rfl⟩

/-- C9: the visualizer is the sole stage without an independently spawned
pipeline-owned thread, and its queue is consumed only by explicit display
calls from the caller's thread: every operation other than a display call at
most appends to the display queue. -/
theorem C9_visualizer_display_thread_exception :
    StageName.visualizer ∉ spawnedStageThreads ∧
    (∀ st : StageName, st ≠ StageName.visualizer →
      st ∈ spawnedStageThreads) ∧
    (∀ (s : PipelineState) (op : PipelineOp),
      op ≠ PipelineOp.displayOnce →
      ∃ extra, (step s op).display_queue = s.display_queue ++ extra) := by
  refine ⟨by decide, ?_, ?_⟩
  · intro st h
    cases st <;> simp_all [spawnedStageThreads]
  · intro s op hop
    cases op with
    | spin p => exact ⟨[], by simp [step, spinOnce_display_queue]⟩
    | shutdownCall => exact ⟨[], by simp [step, shutdownOp]⟩
    | resumeCall => exact ⟨[], by simp [step, resumeOp]⟩
    | registerKeyframeCb cb =>
      exact ⟨[], by simp [step, registerKeyFrameRateOutputCallback]⟩
    | registerLcdCb cb =>
      refine ⟨[], ?_⟩
      rcases h : s.lcd_module <;>
        simp [step, registerLcdPgoOutputCallback, h]
    | frontendThreadStep =>
      exact ⟨[], by simp [step, frontendStep_display_queue]⟩
    | backendThreadStep =>
      simpa [step] using backendStep_display_queue s
    | displayOnce => exact absurd rfl hop

/-- Witness for C9: the visualizer is not among the spawned stage threads,
and a frontend thread iteration on the fresh pipeline does not consume from
the display queue. -/
theorem C9_visualizer_display_thread_exception_witness :
    StageName.visualizer ∉ spawnedStageThreads ∧
    ∃ extra,
      (step initialPipelineState PipelineOp.frontendThreadStep).display_queue =
        initialPipelineState.display_queue ++ extra :=
  ⟨C9_visualizer_display_thread_exception.1,
   C9_visualizer_display_thread_exception.2.2 initialPipelineState
     PipelineOp.frontendThreadStep (by decide)⟩

/-- C10: registering the keyframe-rate output callback unconditionally
overwrites the stored callback — after two successive registrations only the
second is retained, as if the first had never happened — and, unlike the
loop-closure registration, it reports no error and checks nothing about the
rest of the pipeline. -/
theorem C10_keyframe_callback_overwrite (s : PipelineState) (cb1 cb2 : Nat) :
    registerKeyFrameRateOutputCallback
        (registerKeyFrameRateOutputCallback s cb1) cb2 =
      registerKeyFrameRateOutputCallback s cb2 ∧
    (registerKeyFrameRateOutputCallback s cb2).keyframe_rate_output_callback =
      some cb2 ∧
    (registerKeyFrameRateOutputCallback s cb2).error_log = s.error_log ∧
    (registerKeyFrameRateOutputCallback s cb2).lcd_module = s.lcd_module :=
  ⟨rfl, rfl, rfl, rfl⟩

end KimeraVIO
